import Mathlib

/-!
Verification development for the aws-pricing MCP server repository.

The repository ships one source file, `server.py` (the MCP tool layer:
`analyze_cdk_project_wrapper`, `analyze_terraform_project_wrapper`,
`get_pricing`, report generation glue).  The IaC Service Discovery Engine
described by the specification (artifact loader, resource extractor,
service resolver, aggregator, diagnostics reporter) lives in modules the
tool layer imports (`cdk_analyzer`, `terraform_analyzer`); those modules
are not part of the available sources, so the engine is modelled here
directly from the specification's words, while the tool-layer functions
are embedded from `server.py` itself.
-/

namespace AwsPricing

/-- Confidence tier of a service-code resolution. -/
inductive Confidence where
  | Exact
  | Heuristic
  | Unknown
deriving DecidableEq

/-- Splits a character list on a single separator character, keeping
empty groups, so that `a_b` yields `[a, b]` and an empty input yields one
empty group (the behaviour of splitting a string on `_`). -/
def split_char (sep : Char) : List Char → List (List Char)
  | [] => [[]]
  | c :: cs =>
    if c = sep then [] :: split_char sep cs
    else
      match split_char sep cs with
      | [] => [[c]]
      | g :: gs => (c :: g) :: gs

/-- Splits a character list on the two-character separator `::`,
leftmost-first, keeping empty groups (the behaviour of splitting a string
on `::`). -/
def split_double_colon : List Char → List (List Char)
  | [] => [[]]
  | ':' :: ':' :: cs => [] :: split_double_colon cs
  | c :: cs =>
    match split_double_colon cs with
    | [] => [[c]]
    | g :: gs => (c :: g) :: gs

/-- Segments of a CloudFormation-style type identifier, split on `::`. -/
def cfn_segments (tid : String) : List String :=
  (split_double_colon tid.data).map String.mk

/-- Segments of a Terraform-style type identifier, split on `_`. -/
def tf_segments (tid : String) : List String :=
  (split_char '_' tid.data).map String.mk

/-- Modelled from the spec: `ServiceMatch`, the resolver output for one
resource declaration: canonical service code, confidence tier, and the
evidence (substring/rule) that produced the match. -/
structure ServiceMatch where
  service_code : String
  confidence : Confidence
  evidence : String
deriving DecidableEq

/-- Modelled from the spec: the small table of known irregular
CloudFormation namespace mappings (seed data per the spec's examples:
`Lambda → AWSLambda`, `IAM → AWSIdentityAccessManagement`,
`Logs → AmazonCloudWatchLogs`). -/
def cfn_irregular_table : List (String × String) :=
  [("Lambda", "AWSLambda"),
   ("IAM", "AWSIdentityAccessManagement"),
   ("Logs", "AmazonCloudWatchLogs")]

/-- Modelled from the spec: CloudFormation-style resolution
(`AWS::<Namespace>::<Kind>`): split on `::`, look the namespace up in the
irregular table (confidence `Exact`), otherwise synthesize
`Amazon<Namespace>` (confidence `Heuristic`); an empty or malformed
namespace yields confidence `Unknown`.  The engine's source
(`cdk_analyzer` module) is not among the available files. -/
def resolve_cfn (tid : String) : ServiceMatch :=
  match cfn_segments tid with
  | ["AWS", ns, _kind] =>
    if ns = "" then
      { service_code := "", confidence := .Unknown, evidence := "empty namespace segment" }
    else
      match cfn_irregular_table.lookup ns with
      | some code => { service_code := code, confidence := .Exact, evidence := ns }
      | none => { service_code := "Amazon" ++ ns, confidence := .Heuristic, evidence := ns }
  | _ =>
    { service_code := "", confidence := .Unknown, evidence := "malformed type identifier" }

/-- Modelled from the spec: the small table of known Terraform service
segment sequences with their pricing service codes, ordered
longest-first (seed data per the spec's examples: `elasticache`,
`db → RDS`, `opensearchserverless`, `dynamodb`). -/
def tf_pfx_table : List (List String × String) :=
  [(["api", "gateway"], "AmazonApiGateway"),
   (["opensearchserverless"], "AmazonOpenSearchServerless"),
   (["elasticache"], "AmazonElastiCache"),
   (["dynamodb"], "AmazonDynamoDB"),
   (["db"], "AmazonRDS"),
   (["s3"], "AmazonS3"),
   (["lambda"], "AWSLambda")]

/-- Modelled from the spec: Terraform-style resolution (`aws_<segments>`):
strip the `aws_` provider marker (realized by splitting on `_` and
requiring the leading segment `aws`), longest-match against the
segment-sequence table where a match consumes only whole
underscore-delimited segments; with no table match the first segment
alone is the service hint at `Heuristic` confidence, and an empty first
segment yields `Unknown`.  The engine's source (`terraform_analyzer`
module) is not among the available files. -/
def resolve_tf (tid : String) : ServiceMatch :=
  match tf_segments tid with
  | "aws" :: segs =>
    match tf_pfx_table.find? (fun e => e.1.isPrefixOf segs) with
    | some e =>
      { service_code := e.2, confidence := .Exact, evidence := String.intercalate "_" e.1 }
    | none =>
      match segs with
      | [] =>
        { service_code := "", confidence := .Unknown, evidence := "no segments after provider" }
      | s :: _ =>
        if s = "" then
          { service_code := "", confidence := .Unknown, evidence := "empty first segment" }
        else
          { service_code := "Amazon" ++ s.capitalize, confidence := .Heuristic, evidence := s }
  | _ =>
    { service_code := "", confidence := .Unknown, evidence := "not an aws provider resource type" }

/-- Modelled from the spec: the detected project kind. -/
inductive ProjectKind where
  | cdk
  | terraform
deriving DecidableEq

/-- Severity of a non-fatal diagnostic finding. -/
inductive Severity where
  | warning
  | error
deriving DecidableEq

/-- Modelled from the spec: one entry of the `diagnostics` array:
severity, message and location. -/
structure Diagnostic where
  severity : Severity
  message : String
  location : String
deriving DecidableEq

/-- Modelled from the spec: `ResourceDeclaration`, the unit of discovery
emitted by the Resource Extractor. -/
structure ResourceDeclaration where
  logical_id : String
  type_identifier : String
  properties : List (String × String)
  source_location : List String
  references : List String
deriving DecidableEq

/-- Modelled from the spec: `ServiceUsage`, the aggregated view per
discovered service. -/
structure ServiceUsage where
  service_code : String
  resource_count : Nat
  resource_types : List String
  example_logical_ids : List String
  confidence_summary : Nat × Nat × Nat
deriving DecidableEq

/-- Modelled from the spec: the fatal error taxonomy of the engine. -/
inductive ErrorCode where
  | ProjectNotFound
  | AmbiguousProjectKind
  | NoArtifactsFound
  | NoResourcesFound
deriving DecidableEq

/-- Modelled from the spec: a fatal condition surfaced to the caller as a
structured error with a human-readable message and the attempted path. -/
structure EngineError where
  code : ErrorCode
  message : String
  attempted_path : String
deriving DecidableEq

/-- Modelled from the spec: the structure returned to the calling tool
layer on success: `services`, `resource_total`, `diagnostics` and
`project_kind`. -/
structure EngineOutput where
  services : List ServiceUsage
  resource_total : Nat
  diagnostics : List Diagnostic
  project_kind : ProjectKind
deriving DecidableEq

/-- Modelled from the spec: one entry of a loaded artifact's normalized
tree; a malformed entry is skipped with a diagnostic instead of aborting
the scan. -/
inductive RawEntry where
  | wellFormed (d : ResourceDeclaration)
  | malformed (description : String)
deriving DecidableEq

/-- Modelled from the spec: `RawArtifact`, one loaded document with its
source path and parsed entries. -/
structure RawArtifact where
  source_path : String
  entries : List RawEntry
deriving DecidableEq

/-- Modelled from the spec: a document reachable under the project root;
an unreadable artifact produces a diagnostic, not a fatal error. -/
inductive ArtifactSource where
  | readable (a : RawArtifact)
  | unreadable (path : String) (msg : String)
deriving DecidableEq

/-- Modelled from the spec: the observable state of a project root, as
the Artifact Loader sees it: existence of the path, the CDK and Terraform
marker files, and the documents reachable under the root.  The engine's
filesystem-walking source is not among the available files, so the
filesystem is abstracted to this record. -/
structure ProjectSource where
  path_exists : Bool
  has_cdk_marker : Bool
  has_terraform_marker : Bool
  artifacts : List ArtifactSource
deriving DecidableEq

/-- Result of project-kind detection. -/
inductive Detection where
  | ok (k : ProjectKind)
  | ambiguous
  | noMarkers
deriving DecidableEq

/-- Modelled from the spec: detect project kind by marker files, with an
optional explicit kind override resolving ambiguity. -/
def detect_project_kind (ps : ProjectSource) (override : Option ProjectKind) : Detection :=
  match override with
  | some k => .ok k
  | none =>
    match ps.has_cdk_marker, ps.has_terraform_marker with
    | true, true => .ambiguous
    | true, false => .ok .cdk
    | false, true => .ok .terraform
    | false, false => .noMarkers

/-- Human-readable message attached to each fatal error. -/
def fatal_message (c : ErrorCode) (path : String) : String :=
  match c with
  | .ProjectNotFound => "project path does not exist: " ++ path
  | .AmbiguousProjectKind =>
    "both CDK and Terraform markers are present and no kind override was given: " ++ path
  | .NoArtifactsFound => "no artifacts could be loaded under the project root: " ++ path
  | .NoResourcesFound => "zero resources could be extracted across the whole project: " ++ path

/-- A structured fatal error carrying its message and attempted path. -/
def fatal (c : ErrorCode) (path : String) : EngineError :=
  { code := c, message := fatal_message c path, attempted_path := path }

/-- The artifacts that loaded successfully, in load order. -/
def readable_artifacts : List ArtifactSource → List RawArtifact
  | [] => []
  | .readable a :: rest => a :: readable_artifacts rest
  | .unreadable _ _ :: rest => readable_artifacts rest

/-- One diagnostic per artifact that failed to load (partial load is not
fatal). -/
def load_diagnostics : List ArtifactSource → List Diagnostic
  | [] => []
  | .readable _ :: rest => load_diagnostics rest
  | .unreadable p m :: rest =>
    { severity := .warning, message := "failed to load artifact: " ++ m, location := p } ::
      load_diagnostics rest

/-- Modelled from the spec: the Artifact Loader.  Fails with
`ProjectNotFound` if the path does not exist, `AmbiguousProjectKind` if
both markers are present without an override, `NoArtifactsFound` if
detection succeeds but zero documents load; a partial load produces a
diagnostic per failed artifact and continues. -/
def load_project (ps : ProjectSource) (path : String) (override : Option ProjectKind) :
    Except EngineError (ProjectKind × List RawArtifact × List Diagnostic) :=
  if ps.path_exists then
    match detect_project_kind ps override with
    | .ambiguous => .error (fatal .AmbiguousProjectKind path)
    | .noMarkers => .error (fatal .NoArtifactsFound path)
    | .ok k =>
      let arts := readable_artifacts ps.artifacts
      if arts.isEmpty then .error (fatal .NoArtifactsFound path)
      else .ok (k, arts, load_diagnostics ps.artifacts)
  else .error (fatal .ProjectNotFound path)

/-- Modelled from the spec: the Resource Extractor for one artifact:
well-formed entries become declarations in declaration order; malformed
entries are kept as diagnostics and skipped, never raising. -/
def extract_artifact (a : RawArtifact) : List ResourceDeclaration × List Diagnostic :=
  (a.entries.filterMap fun e =>
     match e with
     | .wellFormed d => some d
     | .malformed _ => none,
   a.entries.filterMap fun e =>
     match e with
     | .wellFormed _ => none
     | .malformed m =>
       some { severity := .warning
              message := "malformed resource entry: " ++ m
              location := a.source_path })

/-- Extraction across all loaded artifacts, following load order. -/
def extract_all (l : List RawArtifact) : List ResourceDeclaration × List Diagnostic :=
  (l.flatMap fun a => (extract_artifact a).1, l.flatMap fun a => (extract_artifact a).2)

/-- Modelled from the spec: the Service Resolver dispatch: the resolution
strategy is selected by project kind and is a pure function of the
declaration's type identifier. -/
def resolve_declaration (k : ProjectKind) (d : ResourceDeclaration) : ServiceMatch :=
  match k with
  | .cdk => resolve_cfn d.type_identifier
  | .terraform => resolve_tf d.type_identifier

/-- Every declaration paired with its resolver output. -/
def match_pairs (k : ProjectKind) (decls : List ResourceDeclaration) :
    List (ResourceDeclaration × ServiceMatch) :=
  decls.map fun d => (d, resolve_declaration k d)

/-- One diagnostic per declaration whose resolution came back `Unknown`
(reported, not thrown). -/
def resolution_diagnostics (pairs : List (ResourceDeclaration × ServiceMatch)) :
    List Diagnostic :=
  pairs.filterMap fun p =>
    if p.2.confidence = .Unknown then
      some { severity := .warning
             message := "could not classify resource type: " ++ p.1.type_identifier
             location := p.1.logical_id }
    else none

/-- Modelled from the spec: the aggregation key of a resolved
declaration: declarations with `Unknown` confidence go under the reserved
`Unclassified` bucket instead of a fabricated service code. -/
def group_key (m : ServiceMatch) : String :=
  if m.confidence = .Unknown then "Unclassified" else m.service_code

/-- Modelled from the spec: the per-service aggregate: resource count,
distinct type identifiers, a bounded example sample (first 3), and a
confidence-tier histogram (Exact, Heuristic, Unknown). -/
def mk_usage (pairs : List (ResourceDeclaration × ServiceMatch)) (k : String) : ServiceUsage :=
  let group := pairs.filter fun p => group_key p.2 == k
  { service_code := k
    resource_count := group.length
    resource_types := (group.map fun p => p.1.type_identifier).dedup
    example_logical_ids := (group.map fun p => p.1.logical_id).take 3
    confidence_summary :=
      ((group.filter fun p => p.2.confidence == Confidence.Exact).length,
       (group.filter fun p => p.2.confidence == Confidence.Heuristic).length,
       (group.filter fun p => p.2.confidence == Confidence.Unknown).length) }

/-- The per-service aggregates, one per distinct aggregation key. -/
def service_groups (pairs : List (ResourceDeclaration × ServiceMatch)) : List ServiceUsage :=
  ((pairs.map fun p => group_key p.2).dedup).map (mk_usage pairs)

/-- Modelled from the spec: the output order on ranked services:
descending `resource_count`, ties broken lexicographically by
`service_code`. -/
def service_le (a b : ServiceUsage) : Prop :=
  b.resource_count < a.resource_count ∨
    (a.resource_count = b.resource_count ∧ a.service_code ≤ b.service_code)

instance service_le_dec : DecidableRel service_le := fun _x _y =>
  inferInstanceAs (Decidable (_ ∨ _ ∧ _))

/-- Whether an aggregate is the reserved `Unclassified` bucket. -/
def is_unclassified (u : ServiceUsage) : Bool :=
  u.service_code == "Unclassified"

/-- Modelled from the spec: final ordering of the `services` array:
ranked services sorted by descending count with lexicographic
tie-breaking, and the `Unclassified` bucket always last. -/
def sort_services (l : List ServiceUsage) : List ServiceUsage :=
  List.insertionSort service_le (l.filter fun u => !is_unclassified u) ++
    l.filter is_unclassified

/-- Modelled from the spec: the Aggregator: group by aggregation key and
order the result. -/
def aggregate (pairs : List (ResourceDeclaration × ServiceMatch)) : List ServiceUsage :=
  sort_services (service_groups pairs)

/-- Modelled from the spec: the whole analysis run:
Loader → Extractor → Resolver → Aggregator, failing only on the fatal
taxonomy and collecting every per-resource or per-artifact problem into
diagnostics. -/
def analyze_project (ps : ProjectSource) (path : String) (override : Option ProjectKind) :
    Except EngineError EngineOutput :=
  match load_project ps path override with
  | .error e => .error e
  | .ok (k, arts, ld) =>
    let ex := extract_all arts
    if ex.1.isEmpty then .error (fatal .NoResourcesFound path)
    else
      let pairs := match_pairs k ex.1
      .ok { services := aggregate pairs
            resource_total := ex.1.length
            diagnostics := ld ++ ex.2 ++ resolution_diagnostics pairs
            project_kind := k }

/-- Number of declarations whose resolution came back `Unknown`. -/
def count_unknown (pairs : List (ResourceDeclaration × ServiceMatch)) : Nat :=
  (pairs.filter fun p => p.2.confidence == Confidence.Unknown).length

/-- One pricing filter dictionary, `{'Field': ..., 'Type': ..., 'Value': ...}`
(embedded from `server.py`; the Python `Type` key is spelled
`filter_type` here). -/
structure PricingFilterEntry where
  field : String
  filter_type : String
  value : String
deriving DecidableEq

/-- The `PricingFilters` model: a wrapper holding a list of filters
(embedded from the `filters.filters` access in `server.py`). -/
structure PricingFilters where
  filters : List PricingFilterEntry
deriving DecidableEq

/-- The request `get_pricing` passes to the AWS Pricing API's
`get_products` call (embedded from `server.py` lines 353-357). -/
structure GetProductsRequest where
  service_code : String
  filters : List PricingFilterEntry
  max_results : Nat
deriving DecidableEq

/-- The part of a `get_products` response `get_pricing` inspects: the
`PriceList` array (a missing key is modelled as the empty list, matching
the falsiness test `not response.get('PriceList')`). -/
structure GetProductsResponse where
  price_list : List String
deriving DecidableEq

/-- The effectful environment `get_pricing` runs against: client creation
may raise, and the `get_products` call may raise; both are modelled as
`Except` values. -/
structure PricingEnv where
  create_pricing_client : Except String Unit
  get_products : GetProductsRequest → Except String GetProductsResponse

/-- The dictionary `get_pricing` returns: either the standardized error
response (with its `error_type` and message) or the success dictionary
with `status='success'`, the service name and the price list data. -/
inductive GetPricingResult where
  | errorResponse (error_type : String) (message : String)
  | success (service_name : String) (data : List String) (message : String)
deriving DecidableEq

/-- Whether the returned dictionary has `status` equal to `'success'`
(only the success branch of `get_pricing` sets that key). -/
def GetPricingResult.isSuccess : GetPricingResult → Bool
  | .success _ _ _ => true
  | _ => false

/-- The region filter `get_pricing` always builds first (embedded from
`server.py` line 345). -/
def region_filter (region : String) : PricingFilterEntry :=
  { field := "regionCode", filter_type := "TERM_MATCH", value := region }

/-- The filter list passed to `get_products`: the region filter followed
by the caller-supplied filters in their given order (embedded from
`server.py` lines 345-350; `if filters and filters.filters` extends with
the given list, and extending with nothing equals appending the empty
list). -/
def build_api_filters (region : String) (filters : Option PricingFilters) : List PricingFilterEntry :=
  region_filter region ::
    (match filters with
     | some f => f.filters
     | none => [])

/-- The full `get_products` request: service code, built filters, and
`MaxResults=100` (embedded from `server.py` lines 353-357). -/
def build_get_products_request (service_code region : String) (filters : Option PricingFilters) :
    GetProductsRequest :=
  { service_code := service_code
    filters := build_api_filters region filters
    max_results := 100 }

/-- Handling of the `get_products` outcome (embedded from `server.py`
lines 358-396): an exception becomes an `api_error` response, an empty
`PriceList` becomes `empty_results`, and otherwise the success dictionary
is returned. -/
def handle_products_response (service_code region : String)
    (r : Except String GetProductsResponse) : GetPricingResult :=
  match r with
  | .error e =>
    .errorResponse "api_error"
      ("Failed to retrieve pricing data for service \"" ++ service_code ++ "\" in region \"" ++
        region ++ "\": " ++ e)
  | .ok resp =>
    if resp.price_list.isEmpty then
      .errorResponse "empty_results"
        ("The service \"" ++ service_code ++
          "\" did not return any pricing data. AWS service codes typically follow patterns like \"AmazonS3\", \"AmazonEC2\", \"AmazonES\", etc. Please check the exact service code and try again.")
    else
      .success service_code resp.price_list
        ("Retrieved pricing for " ++ service_code ++ " in " ++ region ++ " from AWS Pricing API")

/-- The `get_pricing` tool (embedded from `server.py` lines 301-396):
client creation failure yields `client_creation_failed`; otherwise the
request is built and handed to `get_products`, whose outcome is handled
by `handle_products_response`.  The function is total: every failure
path returns an error dictionary instead of raising. -/
def get_pricing (env : PricingEnv) (service_code region : String)
    (filters : Option PricingFilters) : GetPricingResult :=
  match env.create_pricing_client with
  | .error e =>
    .errorResponse "client_creation_failed" ("Failed to create AWS Pricing client: " ++ e)
  | .ok _ =>
    handle_products_response service_code region
      (env.get_products (build_get_products_request service_code region filters))

/-- A Python value as far as the wrapper tools inspect one: a string, a
list, or a string-keyed dictionary. -/
inductive PyVal where
  | str (s : String)
  | list (xs : List PyVal)
  | dict (entries : List (String × PyVal))

/-- A Python dictionary with string keys. -/
def PyDict := List (String × PyVal)

/-- Membership test for a key, the embedding of `'services' in d`. -/
def py_has_key (d : PyDict) (k : String) : Bool :=
  d.any fun kv => kv.1 == k

/-- The dictionary returned on an invalid analyzer result (embedded from
`server.py` lines 134-139 and 169-174): `status='error'`, an empty
`services` list, a message naming the project path, and details. -/
def invalid_result_response (kind project_path : String) : PyDict :=
  [("status", .str "error"),
   ("services", .list []),
   ("message",
     .str ("Failed to analyze " ++ kind ++ " project at " ++ project_path ++
       ": Invalid result format")),
   ("details", .dict [("error", .str "Invalid result format")])]

/-- The shared shape of `analyze_cdk_project_wrapper` and
`analyze_terraform_project_wrapper` (embedded from `server.py` lines
114-177): the awaited analyzer call is modelled as an `Except` (an
exception) around an `Option PyDict` (Python `None` or a dictionary); an
exception returns `None`, a truthy dictionary containing the key
`services` is returned as-is, and anything else returns the
invalid-result dictionary. -/
def analyze_project_wrapper (kind : String) (analyzer_result : Except String (Option PyDict))
    (project_path : String) : Option PyDict :=
  match analyzer_result with
  | .error _ => none
  | .ok r =>
    match r with
    | some d =>
      if !d.isEmpty && py_has_key d "services" then some d
      else some (invalid_result_response kind project_path)
    | none => some (invalid_result_response kind project_path)

/-- `analyze_cdk_project_wrapper` from `server.py`. -/
def analyze_cdk_project_wrapper : Except String (Option PyDict) → String → Option PyDict :=
  analyze_project_wrapper "CDK"

/-- `analyze_terraform_project_wrapper` from `server.py`. -/
def analyze_terraform_project_wrapper : Except String (Option PyDict) → String → Option PyDict :=
  analyze_project_wrapper "Terraform"

/-- A project fixture: one CDK artifact holding a single declaration of
an entirely unrecognized resource type. -/
def unclassified_fixture : ProjectSource :=
  { path_exists := true
    has_cdk_marker := true
    has_terraform_marker := false
    artifacts :=
      [.readable
        { source_path := "cdk.out/template.json"
          entries :=
            [.wellFormed
              { logical_id := "OnlyResource"
                type_identifier := "mystery"
                properties := []
                source_location := ["root"]
                references := [] }] }] }

/-- A pricing environment fixture whose client creation succeeds and
whose API returns one price item for every request. -/
def demo_pricing_env : PricingEnv :=
  { create_pricing_client := .ok ()
    get_products := fun _ => .ok { price_list := ["item"] } }

/-- The engine output of analysing `unclassified_fixture`. -/
def unclassified_fixture_output : EngineOutput :=
  { services :=
      [{ service_code := "Unclassified"
         resource_count := 1
         resource_types := ["mystery"]
         example_logical_ids := ["OnlyResource"]
         confidence_summary := (0, 0, 1) }]
    resource_total := 1
    diagnostics :=
      [{ severity := .warning
         message := "could not classify resource type: mystery"
         location := "OnlyResource" }]
    project_kind := .cdk }

/-- A resolved-pair fixture covering all three confidence tiers. -/
def demo_pairs : List (ResourceDeclaration × ServiceMatch) :=
  [({ logical_id := "Fn", type_identifier := "AWS::Lambda::Function", properties := [],
      source_location := ["root"], references := [] },
    resolve_cfn "AWS::Lambda::Function"),
   ({ logical_id := "Bucket", type_identifier := "AWS::S3::Bucket", properties := [],
      source_location := ["root"], references := [] },
    resolve_cfn "AWS::S3::Bucket"),
   ({ logical_id := "Mystery", type_identifier := "mystery", properties := [],
      source_location := ["root"], references := [] },
    resolve_cfn "mystery")]


theorem sorted_find_is_max {a : Type} (len : a → Nat) (p : a → Bool) :
    ∀ (t : List a), t.Sorted (fun x y => len y ≤ len x) →
      ∀ e, t.find? p = some e → ∀ e' ∈ t, p e' = true → len e' ≤ len e := by
  intro t
  induction t with
  | nil => intro _ e he; simp [List.find?] at he
  | cons x t ih =>
    intro hs e he e' he' hp
    rcases List.sorted_cons.mp hs with ⟨hx, ht⟩
    by_cases hpx : p x = true
    · rw [List.find?_cons_of_pos _ hpx] at he
      cases he
      rcases List.mem_cons.mp he' with rfl | hmem
      · exact le_refl _
      · exact hx _ hmem
    · rw [List.find?_cons_of_neg _ (by simpa using hpx)] at he
      rcases List.mem_cons.mp he' with rfl | hmem
      · exact absurd hp hpx
      · exact ih ht e he e' hmem hp

theorem pairwise_trivial {a : Type} : ∀ (l : List a), l.Pairwise fun _ _ => True := by
  intro l
  induction l with
  | nil => exact List.Pairwise.nil
  | cons x t ih => exact List.Pairwise.cons (fun _ _ => trivial) ih

theorem sorted_perm_eq_of_antisymm {a : Type} {r : a → a → Prop} :
    ∀ {l₁ l₂ : List a}, l₁.Perm l₂ → l₁.Sorted r → l₂.Sorted r →
      (∀ x ∈ l₁, ∀ y ∈ l₁, r x y → r y x → x = y) → l₁ = l₂ := by
  intro l₁
  induction l₁ with
  | nil => intro l₂ hp _ _ _; exact hp.nil_eq
  | cons x t ih =>
    intro l₂ hp hs₁ hs₂ hanti
    cases l₂ with
    | nil =>
      have h0 := hp.symm.nil_eq
      exact absurd h0 (by simp)
    | cons y t₂ =>
      have hxy : x = y := by
        have hmx : x ∈ y :: t₂ := hp.subset (List.mem_cons_self x t)
        rcases List.mem_cons.mp hmx with h | h
        · exact h
        · have hyx : r y x := (List.sorted_cons.mp hs₂).1 x h
          have hmy : y ∈ x :: t := hp.symm.subset (List.mem_cons_self y t₂)
          rcases List.mem_cons.mp hmy with h2 | h2
          · exact h2.symm
          · have hxy2 : r x y := (List.sorted_cons.mp hs₁).1 y h2
            exact hanti x (List.mem_cons_self x t) y (List.mem_cons.mpr (Or.inr h2)) hxy2 hyx
      subst hxy
      have hp2 : t.Perm t₂ := (List.perm_cons x).mp hp
      have heq := ih hp2 (List.sorted_cons.mp hs₁).2 (List.sorted_cons.mp hs₂).2
        (fun u hu v hv huv hvu =>
          hanti u (List.mem_cons.mpr (Or.inr hu)) v (List.mem_cons.mpr (Or.inr hv)) huv hvu)
      rw [heq]

theorem perm_eq_of_all_eq {a : Type} {l₁ l₂ : List a} (hp : l₁.Perm l₂)
    (hall : ∀ x ∈ l₁, ∀ y ∈ l₁, x = y) : l₁ = l₂ :=
  sorted_perm_eq_of_antisymm hp (pairwise_trivial l₁) (pairwise_trivial l₂)
    (fun x hx y hy _ _ => hall x hx y hy)

instance : IsTotal ServiceUsage service_le where
  total a b := by
    unfold service_le
    rcases Nat.lt_trichotomy b.resource_count a.resource_count with h | h | h
    · exact Or.inl (Or.inl h)
    · rcases le_total a.service_code b.service_code with hc | hc
      · exact Or.inl (Or.inr ⟨h.symm, hc⟩)
      · exact Or.inr (Or.inr ⟨h, hc⟩)
    · exact Or.inr (Or.inl h)

instance : IsTrans ServiceUsage service_le where
  trans a b c hab hbc := by
    unfold service_le at hab hbc ⊢
    rcases hab with h1 | ⟨h1, h1c⟩
    · rcases hbc with h2 | ⟨h2, h2c⟩
      · exact Or.inl (h2.trans h1)
      · exact Or.inl (h2 ▸ h1)
    · rcases hbc with h2 | ⟨h2, h2c⟩
      · exact Or.inl (h1.symm ▸ h2)
      · exact Or.inr ⟨h1.trans h2, le_trans h1c h2c⟩

theorem sort_services_perm_self (l : List ServiceUsage) : (sort_services l).Perm l := by
  unfold sort_services
  have h1 : (List.insertionSort service_le (l.filter fun u => !is_unclassified u)).Perm
      (l.filter fun u => !is_unclassified u) := List.perm_insertionSort _ _
  have h2 := h1.append_right (l.filter is_unclassified)
  refine h2.trans ?_
  have h3 := List.filter_append_perm (fun u => !is_unclassified u) l
  have hfun : (fun x => !(!is_unclassified x)) = fun x : ServiceUsage => is_unclassified x := by
    funext x
    simp
  rw [hfun] at h3
  exact h3

theorem service_groups_codes_nodup (pairs : List (ResourceDeclaration × ServiceMatch)) :
    ((service_groups pairs).map ServiceUsage.service_code).Nodup := by
  unfold service_groups
  rw [List.map_map]
  have hcomp : (ServiceUsage.service_code ∘ mk_usage pairs) = id := by
    funext k
    rfl
  rw [hcomp, List.map_id]
  exact List.nodup_dedup _

theorem filter_key_length (pairs : List (ResourceDeclaration × ServiceMatch)) (k : String) :
    (pairs.filter fun p => group_key p.2 == k).length =
      (pairs.map fun p => group_key p.2).count k := by
  rw [List.count_eq_countP, List.countP_map, List.countP_eq_length_filter]
  rfl

theorem filter_code_length_le_one {l : List ServiceUsage}
    (h : (l.map ServiceUsage.service_code).Nodup) (c : String) :
    (l.filter fun u => u.service_code == c).length ≤ 1 := by
  induction l with
  | nil => simp
  | cons x t ih =>
    rw [List.map_cons, List.nodup_cons] at h
    rw [List.filter_cons]
    by_cases hx : (x.service_code == c) = true
    · rw [if_pos hx]
      have ht : t.filter (fun u => u.service_code == c) = [] := by
        rw [List.filter_eq_nil_iff]
        intro u hu hc
        apply h.1
        rw [List.mem_map]
        refine ⟨u, hu, ?_⟩
        have h1 : u.service_code = c := by simpa using hc
        have h2 : x.service_code = c := by simpa using hx
        rw [h1, h2]
      rw [ht]
      simp
    · rw [if_neg hx]
      exact ih h.2

theorem sort_services_eq_of_perm {l m : List ServiceUsage} (hp : l.Perm m)
    (hnd : (m.map ServiceUsage.service_code).Nodup) : sort_services l = sort_services m := by
  have hinj : ∀ x ∈ m, ∀ y ∈ m, x.service_code = y.service_code → x = y :=
    fun x hx y hy hxy => List.inj_on_of_nodup_map hnd hx hy hxy
  have hranked :
      List.insertionSort service_le (l.filter fun u => !is_unclassified u) =
        List.insertionSort service_le (m.filter fun u => !is_unclassified u) := by
    have hpf : (l.filter fun u => !is_unclassified u).Perm (m.filter fun u => !is_unclassified u) :=
      hp.filter _
    have hperm : (List.insertionSort service_le (l.filter fun u => !is_unclassified u)).Perm
        (List.insertionSort service_le (m.filter fun u => !is_unclassified u)) :=
      ((List.perm_insertionSort _ _).trans hpf).trans (List.perm_insertionSort _ _).symm
    refine sorted_perm_eq_of_antisymm hperm (List.sorted_insertionSort _ _)
      (List.sorted_insertionSort _ _) ?_
    intro x hx y hy hxy hyx
    have hxl : x ∈ l := (List.mem_filter.mp ((List.perm_insertionSort _ _).subset hx)).1
    have hyl : y ∈ l := (List.mem_filter.mp ((List.perm_insertionSort _ _).subset hy)).1
    have hxm : x ∈ m := hp.subset hxl
    have hym : y ∈ m := hp.subset hyl
    unfold service_le at hxy hyx
    rcases hxy with h1 | ⟨h1, h1c⟩
    · rcases hyx with h2 | ⟨h2, h2c⟩
      · exact absurd (h1.trans h2) (lt_irrefl _)
      · exact absurd (h2 ▸ h1) (lt_irrefl _)
    · rcases hyx with h2 | ⟨h2, h2c⟩
      · exact absurd (h1 ▸ h2) (lt_irrefl _)
      · exact hinj x hxm y hym (le_antisymm h1c h2c)
  have huncl : l.filter is_unclassified = m.filter is_unclassified := by
    have hpf : (l.filter is_unclassified).Perm (m.filter is_unclassified) := hp.filter _
    refine perm_eq_of_all_eq hpf ?_
    intro x hx y hy
    have hxf := List.mem_filter.mp hx
    have hyf := List.mem_filter.mp hy
    have hxm : x ∈ m := hp.subset hxf.1
    have hym : y ∈ m := hp.subset hyf.1
    have hxc : x.service_code = "Unclassified" := by simpa [is_unclassified] using hxf.2
    have hyc : y.service_code = "Unclassified" := by simpa [is_unclassified] using hyf.2
    exact hinj x hxm y hym (hxc.trans hyc.symm)
  unfold sort_services
  rw [hranked, huncl]


/-- C1: CloudFormation-style resolution: table hit gives the table's code
at `Exact`, a miss synthesizes `Amazon<Namespace>` at `Heuristic`, an
empty or malformed namespace gives `Unknown`; `AWS::Lambda::Function`
resolves to `AWSLambda` (`Exact`) and `AWS::FooBar::Widget` to
`AmazonFooBar` (`Heuristic`). -/
theorem cfn_resolution_spec (tid ns kind : String)
    (h : cfn_segments tid = ["AWS", ns, kind]) :
    (∀ code, cfn_irregular_table.lookup ns = some code →
        resolve_cfn tid = { service_code := code, confidence := .Exact, evidence := ns }) ∧
    (ns ≠ "" → cfn_irregular_table.lookup ns = none →
        resolve_cfn tid = { service_code := "Amazon" ++ ns, confidence := .Heuristic, evidence := ns }) ∧
    (ns = "" → (resolve_cfn tid).confidence = .Unknown) ∧
    resolve_cfn "AWS::Lambda::Function" =
      { service_code := "AWSLambda", confidence := .Exact, evidence := "Lambda" } ∧
    resolve_cfn "AWS::FooBar::Widget" =
      { service_code := "AmazonFooBar", confidence := .Heuristic, evidence := "FooBar" } := by
  refine ⟨?_, ?_, ?_, by decide, by decide⟩
  · intro code hcode
    by_cases hns : ns = ""
    · subst hns
      have hnone : cfn_irregular_table.lookup "" = none := by decide
      rw [hnone] at hcode
      exact Option.noConfusion hcode
    · unfold resolve_cfn
      rw [h]
      simp [hns, hcode]
  · intro hns hnone
    unfold resolve_cfn
    rw [h]
    simp [hns, hnone]
  · intro hns
    subst hns
    unfold resolve_cfn
    rw [h]
    simp

/-- Witness for C1 at the concrete identifier `AWS::Lambda::Function`. -/
theorem cfn_resolution_spec_witness :
    resolve_cfn "AWS::Lambda::Function" =
      { service_code := "AWSLambda", confidence := .Exact, evidence := "Lambda" } :=
  (cfn_resolution_spec "AWS::Lambda::Function" "Lambda" "Function" (by decide)).1
    "AWSLambda" (by decide)

/-- C2: Terraform-style resolution: after stripping the provider marker,
a table match is a longest whole-segment match; with no match the
first segment alone is the hint at `Heuristic`, and an empty first
segment yields `Unknown`; `aws_db_instance` resolves to `AmazonRDS` via
the `db` entry and `aws_s3_bucket` to `AmazonS3`. -/
theorem tf_resolution_spec (tid : String) (segs : List String)
    (h : tf_segments tid = "aws" :: segs) :
    (∀ e, tf_pfx_table.find? (fun e => e.1.isPrefixOf segs) = some e →
        resolve_tf tid =
          { service_code := e.2, confidence := .Exact, evidence := String.intercalate "_" e.1 } ∧
        e.1 <+: segs ∧
        ∀ e' ∈ tf_pfx_table, e'.1 <+: segs → e'.1.length ≤ e.1.length) ∧
    (tf_pfx_table.find? (fun e => e.1.isPrefixOf segs) = none →
        ∀ s rest, segs = s :: rest →
          (s ≠ "" → resolve_tf tid =
              { service_code := "Amazon" ++ s.capitalize, confidence := .Heuristic, evidence := s }) ∧
          (s = "" → resolve_tf tid =
              { service_code := "", confidence := .Unknown, evidence := "empty first segment" })) ∧
    resolve_tf "aws_db_instance" =
      { service_code := "AmazonRDS", confidence := .Exact, evidence := "db" } ∧
    resolve_tf "aws_s3_bucket" =
      { service_code := "AmazonS3", confidence := .Exact, evidence := "s3" } := by
  refine ⟨?_, ?_, by decide, by decide⟩
  · intro e he
    refine ⟨?_, ?_, ?_⟩
    · unfold resolve_tf
      rw [h]
      simp [he]
    · have := List.find?_some he
      simpa using this
    · intro e' he' hpfx
      refine sorted_find_is_max (fun e => e.1.length) _ tf_pfx_table ?_ e he e' he' ?_
      · decide
      · simpa using hpfx
  · intro hnone s rest hsegs
    constructor
    · intro hs
      subst hsegs
      unfold resolve_tf
      rw [h]
      simp [hnone, hs]
    · intro hs
      subst hsegs
      subst hs
      unfold resolve_tf
      rw [h]
      simp [hnone]

/-- Witness for C2 at the concrete identifier `aws_db_instance`. -/
theorem tf_resolution_spec_witness :
    resolve_tf "aws_db_instance" =
      { service_code := "AmazonRDS", confidence := .Exact, evidence := "db" } :=
  ((tf_resolution_spec "aws_db_instance" ["db", "instance"] (by decide)).1
    (⟨["db"], "AmazonRDS"⟩ : List String × String) (by decide)).1

/-- C3: resolution is total (its worst case is the `Unknown` tier, which
is still aggregated): every `Unknown`-resolved declaration is retained
under the reserved `Unclassified` bucket whose count is exactly the
number of `Unknown` resolutions, no declaration is dropped (the bucket
counts sum to the number of declarations), and the one-unrecognized-
resource project yields one `Unclassified` bucket with
`resource_count = 1` instead of an error. -/
theorem unknown_resolutions_reach_unclassified_bucket
    (pairs : List (ResourceDeclaration × ServiceMatch))
    (hres : ∀ p ∈ pairs, p.2.confidence ≠ Confidence.Unknown → p.2.service_code ≠ "Unclassified")
    (hne : 0 < count_unknown pairs) :
    (∃ u ∈ aggregate pairs, u.service_code = "Unclassified" ∧
        u.resource_count = count_unknown pairs) ∧
    ((aggregate pairs).map ServiceUsage.resource_count).sum = pairs.length ∧
    analyze_project unclassified_fixture "demo" none =
      Except.ok
        { services :=
            [{ service_code := "Unclassified"
               resource_count := 1
               resource_types := ["mystery"]
               example_logical_ids := ["OnlyResource"]
               confidence_summary := (0, 0, 1) }]
          resource_total := 1
          diagnostics :=
            [{ severity := .warning
               message := "could not classify resource type: mystery"
               location := "OnlyResource" }]
          project_kind := .cdk } := by
  have hfe : (pairs.filter fun p => group_key p.2 == "Unclassified") =
      (pairs.filter fun p => p.2.confidence == Confidence.Unknown) := by
    apply List.filter_congr
    intro p hp2
    unfold group_key
    by_cases hu : p.2.confidence = Confidence.Unknown
    · simp [hu]
    · have hne2 := hres p hp2 hu
      simp [hu, hne2]
  refine ⟨?_, ?_, by rfl⟩
  · obtain ⟨p0, hp0⟩ := List.exists_mem_of_length_pos hne
    have hp0m := List.mem_filter.mp hp0
    have hkey : group_key p0.2 = "Unclassified" := by
      unfold group_key
      have : p0.2.confidence = Confidence.Unknown := by simpa using hp0m.2
      simp [this]
    have hmem_map : "Unclassified" ∈ pairs.map fun p => group_key p.2 :=
      List.mem_map.mpr ⟨p0, hp0m.1, hkey⟩
    have hmem_keys : "Unclassified" ∈ (pairs.map fun p => group_key p.2).dedup :=
      List.mem_dedup.mpr hmem_map
    have hmem_groups : mk_usage pairs "Unclassified" ∈ service_groups pairs :=
      List.mem_map.mpr ⟨"Unclassified", hmem_keys, rfl⟩
    refine ⟨mk_usage pairs "Unclassified",
      (sort_services_perm_self (service_groups pairs)).symm.subset hmem_groups, rfl, ?_⟩
    show (pairs.filter fun p => group_key p.2 == "Unclassified").length = count_unknown pairs
    rw [hfe]
    rfl
  · have hpm := (sort_services_perm_self (service_groups pairs)).map ServiceUsage.resource_count
    have h1 := hpm.sum_eq
    show ((sort_services (service_groups pairs)).map ServiceUsage.resource_count).sum = pairs.length
    rw [h1]
    unfold service_groups
    rw [List.map_map]
    have hcong : ∀ k ∈ (pairs.map fun p => group_key p.2).dedup,
        (ServiceUsage.resource_count ∘ mk_usage pairs) k =
          (pairs.map fun p => group_key p.2).count k :=
      fun k _ => filter_key_length pairs k
    rw [List.map_congr_left hcong]
    rw [List.sum_map_count_dedup_eq_length]
    simp

/-- Witness for C3 at a single-pair list whose only resolution is
`Unknown`. -/
theorem unknown_resolutions_reach_unclassified_bucket_witness :
    ∃ u ∈ aggregate
        [({ logical_id := "OnlyResource", type_identifier := "mystery", properties := [],
            source_location := ["root"], references := [] },
          { service_code := "", confidence := Confidence.Unknown,
            evidence := "malformed type identifier" })],
      u.service_code = "Unclassified" ∧ u.resource_count = 1 :=
  (unknown_resolutions_reach_unclassified_bucket
    [({ logical_id := "OnlyResource", type_identifier := "mystery", properties := [],
        source_location := ["root"], references := [] },
      { service_code := "", confidence := Confidence.Unknown,
        evidence := "malformed type identifier" })]
    (by decide) (by decide)).1


theorem load_project_error_shape (ps : ProjectSource) (path : String)
    (override : Option ProjectKind) (e : EngineError)
    (h : load_project ps path override = .error e) :
    e = fatal .ProjectNotFound path ∨ e = fatal .AmbiguousProjectKind path ∨
      e = fatal .NoArtifactsFound path := by
  unfold load_project at h
  by_cases hpe : ps.path_exists = true
  · rw [if_pos hpe] at h
    cases hdet : detect_project_kind ps override with
    | ambiguous =>
      rw [hdet] at h
      simp at h
      exact Or.inr (Or.inl h.symm)
    | noMarkers =>
      rw [hdet] at h
      simp at h
      exact Or.inr (Or.inr h.symm)
    | ok k =>
      rw [hdet] at h
      by_cases hemp : (readable_artifacts ps.artifacts).isEmpty = true
      · simp only [hemp, if_true] at h
        simp at h
        exact Or.inr (Or.inr h.symm)
      · simp only [hemp, if_false] at h
        simp at h
  · rw [if_neg hpe] at h
    simp at h
    exact Or.inl h.symm

/-- C4: the analysis fails only on the four-item fatal taxonomy, each
error carrying the attempted path and its human-readable message; when
the project loads, a zero-resource extraction is the only remaining
fatal condition, and otherwise the run succeeds with every per-artifact
and per-resource problem collected into `diagnostics`. -/
theorem analysis_fatal_error_taxonomy (ps : ProjectSource) (path : String)
    (override : Option ProjectKind) :
    (∀ e, analyze_project ps path override = .error e →
        (e.code = .ProjectNotFound ∨ e.code = .AmbiguousProjectKind ∨
          e.code = .NoArtifactsFound ∨ e.code = .NoResourcesFound) ∧
        e.attempted_path = path ∧ e.message = fatal_message e.code path) ∧
    (∀ k arts ld, load_project ps path override = .ok (k, arts, ld) →
        ((extract_all arts).1 = [] →
            analyze_project ps path override = .error (fatal .NoResourcesFound path)) ∧
        ((extract_all arts).1 ≠ [] →
            analyze_project ps path override = .ok
              { services := aggregate (match_pairs k (extract_all arts).1)
                resource_total := (extract_all arts).1.length
                diagnostics := ld ++ (extract_all arts).2 ++
                  resolution_diagnostics (match_pairs k (extract_all arts).1)
                project_kind := k })) := by
  constructor
  · intro e he
    unfold analyze_project at he
    cases hl : load_project ps path override with
    | error e2 =>
      rw [hl] at he
      simp at he
      subst he
      rcases load_project_error_shape ps path override e2 hl with h | h | h <;> subst h
      · exact ⟨Or.inl rfl, rfl, rfl⟩
      · exact ⟨Or.inr (Or.inl rfl), rfl, rfl⟩
      · exact ⟨Or.inr (Or.inr (Or.inl rfl)), rfl, rfl⟩
    | ok trip =>
      obtain ⟨k, arts, ld⟩ := trip
      rw [hl] at he
      by_cases hemp : (extract_all arts).1.isEmpty = true
      · simp only [hemp, if_true] at he
        simp at he
        subst he
        exact ⟨Or.inr (Or.inr (Or.inr rfl)), rfl, rfl⟩
      · simp only [hemp, if_false] at he
        simp at he
  · intro k arts ld hl
    constructor
    · intro hnil
      unfold analyze_project
      rw [hl]
      simp [hnil]
    · intro hne
      unfold analyze_project
      rw [hl]
      have hemp : ¬ ((extract_all arts).1.isEmpty = true) := by
        simp [List.isEmpty_iff, hne]
      dsimp only
      rw [if_neg hemp]

/-- Witness for C4 at a project source whose root path does not exist. -/
theorem analysis_fatal_error_taxonomy_witness :
    (fatal .ProjectNotFound "missing").code = .ProjectNotFound ∨
      (fatal .ProjectNotFound "missing").code = .AmbiguousProjectKind ∨
      (fatal .ProjectNotFound "missing").code = .NoArtifactsFound ∨
      (fatal .ProjectNotFound "missing").code = .NoResourcesFound :=
  ((analysis_fatal_error_taxonomy
      { path_exists := false, has_cdk_marker := false, has_terraform_marker := false,
        artifacts := [] }
      "missing" none).1 (fatal .ProjectNotFound "missing") (by rfl)).1

/-- C5: the analysis is deterministic: re-running it on the unmodified
project yields the identical result, and the final service ordering is
canonical: sorting any permutation of the per-service aggregates (for
example one produced by a different merge order) yields byte-identical
`services` output. -/
theorem analysis_idempotent :
    (∀ ps path override, analyze_project ps path override = analyze_project ps path override) ∧
    (∀ pairs l, l.Perm (service_groups pairs) → sort_services l = aggregate pairs) := by
  refine ⟨fun ps path override => rfl, ?_⟩
  intro pairs l hp
  exact sort_services_eq_of_perm hp (service_groups_codes_nodup pairs)

/-- Witness for C5: sorting the reversed aggregate list of the demo
pairs reproduces the canonical output. -/
theorem analysis_idempotent_witness :
    sort_services (service_groups demo_pairs).reverse = aggregate demo_pairs :=
  analysis_idempotent.2 demo_pairs (service_groups demo_pairs).reverse
    (List.reverse_perm _)

/-- C6: the `services` output is a sorted ranked segment (descending
`resource_count`, ties broken lexicographically by `service_code`)
followed by the `Unclassified` bucket, which is always last and unique
regardless of its count. -/
theorem services_output_ordering (pairs : List (ResourceDeclaration × ServiceMatch)) :
    ∃ ranked uncl, aggregate pairs = ranked ++ uncl ∧
      List.Sorted service_le ranked ∧
      (∀ u ∈ ranked, u.service_code ≠ "Unclassified") ∧
      (∀ u ∈ uncl, u.service_code = "Unclassified") ∧
      uncl.length ≤ 1 := by
  refine ⟨List.insertionSort service_le
      ((service_groups pairs).filter fun u => !is_unclassified u),
    (service_groups pairs).filter is_unclassified, rfl,
    List.sorted_insertionSort _ _, ?_, ?_, ?_⟩
  · intro u hu
    have hmem := (List.perm_insertionSort service_le _).subset hu
    have hpred := (List.mem_filter.mp hmem).2
    simpa [is_unclassified] using hpred
  · intro u hu
    have hpred := (List.mem_filter.mp hu).2
    simpa [is_unclassified] using hpred
  · exact filter_code_length_le_one (service_groups_codes_nodup pairs) "Unclassified"

/-- C7: the engine takes a project root path plus an optional explicit
kind override (which always resolves detection to the overridden kind),
and every successful run returns the structure holding `services`,
`resource_total` (the number of extracted declarations), `diagnostics`
and `project_kind`. -/
theorem engine_interface_shape (ps : ProjectSource) (path : String)
    (override : Option ProjectKind) (out : EngineOutput)
    (h : analyze_project ps path override = .ok out) :
    (∃ k arts ld, load_project ps path override = .ok (k, arts, ld) ∧
      out.project_kind = k ∧
      out.resource_total = (extract_all arts).1.length ∧
      out.services = aggregate (match_pairs k (extract_all arts).1) ∧
      out.diagnostics = ld ++ (extract_all arts).2 ++
        resolution_diagnostics (match_pairs k (extract_all arts).1)) ∧
    (∀ ps2 k2, detect_project_kind ps2 (some k2) = Detection.ok k2) := by
  refine ⟨?_, fun ps2 k2 => rfl⟩
  unfold analyze_project at h
  cases hl : load_project ps path override with
  | error e =>
    rw [hl] at h
    simp at h
  | ok trip =>
    obtain ⟨k, arts, ld⟩ := trip
    rw [hl] at h
    by_cases hemp : (extract_all arts).1.isEmpty = true
    · simp only [hemp, if_true] at h
      simp at h
    · dsimp only at h
      rw [if_neg hemp] at h
      injection h with h
      subst h
      exact ⟨k, arts, ld, rfl, rfl, rfl, rfl, rfl⟩

/-- Witness for C7 at the concrete unclassified fixture. -/
theorem engine_interface_shape_witness :
    ∃ k arts ld, load_project unclassified_fixture "demo" none = .ok (k, arts, ld) ∧
      unclassified_fixture_output.project_kind = k ∧
      unclassified_fixture_output.resource_total = (extract_all arts).1.length ∧
      unclassified_fixture_output.services =
        aggregate (match_pairs k (extract_all arts).1) ∧
      unclassified_fixture_output.diagnostics = ld ++ (extract_all arts).2 ++
        resolution_diagnostics (match_pairs k (extract_all arts).1) :=
  (engine_interface_shape unclassified_fixture "demo" none
    unclassified_fixture_output (by rfl)).1


/-- C8: whenever `get_pricing` reaches the API call (client creation
succeeded), the outcome is the handling of `get_products` applied to the
built request, whose filter list is the region filter followed by the
caller-supplied filters in their given order and whose `MaxResults` is
100. -/
theorem get_pricing_request_construction (env : PricingEnv) (sc region : String)
    (fs : Option PricingFilters) (hclient : env.create_pricing_client = Except.ok ()) :
    get_pricing env sc region fs =
      handle_products_response sc region
        (env.get_products (build_get_products_request sc region fs)) ∧
    (build_get_products_request sc region fs).max_results = 100 ∧
    (build_get_products_request sc region fs).filters.head? = some (region_filter region) ∧
    (∀ pf, fs = some pf →
        (build_get_products_request sc region fs).filters = region_filter region :: pf.filters) ∧
    (fs = none → (build_get_products_request sc region fs).filters = [region_filter region]) := by
  refine ⟨?_, rfl, rfl, ?_, ?_⟩
  · unfold get_pricing
    rw [hclient]
  · intro pf hpf
    subst hpf
    rfl
  · intro hpf
    subst hpf
    rfl

/-- Witness for C8 at the demo pricing environment with one supplied
filter. -/
theorem get_pricing_request_construction_witness :
    (build_get_products_request "AmazonEC2" "us-east-1"
        (some { filters := [{ field := "instanceType", filter_type := "TERM_MATCH",
                              value := "m5.large" }] })).max_results = 100 :=
  (get_pricing_request_construction demo_pricing_env "AmazonEC2" "us-east-1"
    (some { filters := [{ field := "instanceType", filter_type := "TERM_MATCH",
                          value := "m5.large" }] }) rfl).2.1

/-- C9: `get_pricing` returns `status='success'` exactly when the API
response holds a non-empty `PriceList`; a failed client creation, a
failed API call and an empty result map to the `client_creation_failed`,
`api_error` and `empty_results` error responses respectively, and each
failure path returns a dictionary instead of raising. -/
theorem get_pricing_status_taxonomy (env : PricingEnv) (sc region : String)
    (fs : Option PricingFilters) :
    ((get_pricing env sc region fs).isSuccess = true ↔
      ∃ resp, env.create_pricing_client = Except.ok () ∧
        env.get_products (build_get_products_request sc region fs) = Except.ok resp ∧
        resp.price_list ≠ []) ∧
    (∀ e, env.create_pricing_client = Except.error e →
        get_pricing env sc region fs =
          .errorResponse "client_creation_failed"
            ("Failed to create AWS Pricing client: " ++ e)) ∧
    (∀ e, env.create_pricing_client = Except.ok () →
        env.get_products (build_get_products_request sc region fs) = Except.error e →
        get_pricing env sc region fs =
          .errorResponse "api_error"
            ("Failed to retrieve pricing data for service \"" ++ sc ++ "\" in region \"" ++
              region ++ "\": " ++ e)) ∧
    (∀ resp, env.create_pricing_client = Except.ok () →
        env.get_products (build_get_products_request sc region fs) = Except.ok resp →
        resp.price_list = [] →
        get_pricing env sc region fs =
          .errorResponse "empty_results"
            ("The service \"" ++ sc ++
              "\" did not return any pricing data. AWS service codes typically follow patterns like \"AmazonS3\", \"AmazonEC2\", \"AmazonES\", etc. Please check the exact service code and try again.")) := by
  refine ⟨?_, ?_, ?_, ?_⟩
  · constructor
    · intro hs
      unfold get_pricing at hs
      cases hc : env.create_pricing_client with
      | error e =>
        rw [hc] at hs
        simp [GetPricingResult.isSuccess] at hs
      | ok u =>
        cases u
        rw [hc] at hs
        dsimp only at hs
        unfold handle_products_response at hs
        cases hg : env.get_products (build_get_products_request sc region fs) with
        | error e =>
          rw [hg] at hs
          simp [GetPricingResult.isSuccess] at hs
        | ok resp =>
          rw [hg] at hs
          dsimp only at hs
          by_cases hemp : resp.price_list.isEmpty = true
          · rw [if_pos hemp] at hs
            simp [GetPricingResult.isSuccess] at hs
          · refine ⟨resp, rfl, rfl, ?_⟩
            simpa [List.isEmpty_iff] using hemp
    · rintro ⟨resp, hc, hg, hne⟩
      unfold get_pricing
      rw [hc]
      dsimp only
      unfold handle_products_response
      rw [hg]
      dsimp only
      rw [if_neg (by simpa [List.isEmpty_iff] using hne)]
      rfl
  · intro e hc
    unfold get_pricing
    rw [hc]
  · intro e hc hg
    unfold get_pricing
    rw [hc]
    dsimp only
    unfold handle_products_response
    rw [hg]
  · intro resp hc hg hemp
    unfold get_pricing
    rw [hc]
    dsimp only
    unfold handle_products_response
    rw [hg]
    dsimp only
    rw [if_pos (by simp [List.isEmpty_iff, hemp])]

/-- Witness for C9: the demo environment returns a successful status. -/
theorem get_pricing_status_taxonomy_witness :
    (get_pricing demo_pricing_env "AmazonEC2" "us-east-1" none).isSuccess = true :=
  (get_pricing_status_taxonomy demo_pricing_env "AmazonEC2" "us-east-1" none).1.mpr
    ⟨{ price_list := ["item"] }, rfl, rfl, by simp⟩

/-- C10: each analyzer wrapper returns `None` exactly when the analyzer
raised; every non-`None` return is a dictionary containing the key
`services`; and the invalid-result branch returns the error dictionary
with `status='error'` and an empty `services` list.  Both wrappers are
instances of the same shape. -/
theorem wrapper_result_invariant (kind : String)
    (res : Except String (Option PyDict)) (path : String) :
    (analyze_project_wrapper kind res path = none ↔ ∃ e, res = Except.error e) ∧
    (∀ d, analyze_project_wrapper kind res path = some d → py_has_key d "services" = true) ∧
    (∀ r, res = Except.ok r →
        (∀ d, r = some d → (!d.isEmpty && py_has_key d "services") = false →
            analyze_project_wrapper kind res path =
              some (invalid_result_response kind path)) ∧
        (r = none →
            analyze_project_wrapper kind res path =
              some (invalid_result_response kind path))) ∧
    (invalid_result_response kind path).lookup "status" = some (.str "error") ∧
    (invalid_result_response kind path).lookup "services" = some (.list []) ∧
    analyze_cdk_project_wrapper = analyze_project_wrapper "CDK" ∧
    analyze_terraform_project_wrapper = analyze_project_wrapper "Terraform" := by
  refine ⟨?_, ?_, ?_, rfl, rfl, rfl, rfl⟩
  · constructor
    · intro hn
      cases res with
      | error e => exact ⟨e, rfl⟩
      | ok r =>
        unfold analyze_project_wrapper at hn
        cases r with
        | none => simp at hn
        | some d =>
          dsimp only at hn
          by_cases hc : (!d.isEmpty && py_has_key d "services") = true
          · rw [if_pos hc] at hn
            simp at hn
          · rw [if_neg hc] at hn
            simp at hn
    · rintro ⟨e, he⟩
      subst he
      rfl
  · intro d hd
    cases res with
    | error e => simp [analyze_project_wrapper] at hd
    | ok r =>
      unfold analyze_project_wrapper at hd
      cases r with
      | none =>
        simp at hd
        subst hd
        rfl
      | some d2 =>
        dsimp only at hd
        by_cases hc : (!d2.isEmpty && py_has_key d2 "services") = true
        · rw [if_pos hc] at hd
          simp at hd
          subst hd
          exact ((Bool.and_eq_true _ _).mp hc).2
        · rw [if_neg hc] at hd
          simp at hd
          subst hd
          rfl
  · intro r hr
    subst hr
    constructor
    · intro d hd hc
      subst hd
      unfold analyze_project_wrapper
      dsimp only
      rw [if_neg (by simp [hc])]
    · intro hr2
      subst hr2
      rfl

/-- Witness for C10: a raising CDK analyzer yields `None`. -/
theorem wrapper_result_invariant_witness :
    analyze_project_wrapper "CDK" (Except.error "boom") "proj" = none :=
  (wrapper_result_invariant "CDK" (Except.error "boom") "proj").1.mpr ⟨"boom", rfl⟩

end AwsPricing
